import Mathlib

/-!
Verification of the door motion state machine of `bevy_infrastructure`
(`src/door/mod.rs`).

Modelling conventions (shallow embedding):

* All `f32` quantities are embedded as exact rationals (`ℚ`).  The source's
  numeric literals `0.01` and `0.02` become `1/100` and `2/100`.
  `f32::signum` is embedded as `signum` below (`signum 0 = 1`, matching
  Rust's `f32::signum` on `+0.0`).
* A joint entity's `Transform` is embedded as `JointTransform`: the sliding
  integrator only ever reads/writes `translation.x` (field `offset`), and the
  swinging integrator only composes pure y-axis rotations starting from the
  identity, which are represented by their accumulated angle in radians
  (field `angle`); `rotate (from_rotation_y a)` is angle addition, the Euler
  y-angle readback `to_euler(ZYX).1` is the angle itself, `from_rotation_y s`
  is `s`, and the identity quaternion is `0`.
* A door entity's base `Transform` is embedded as `Transform` with the
  translation components and the rotation about the vertical axis measured in
  half-turns (`rotYHalfTurns`), so that the source's
  `Quat::from_rotation_y(PI)` is the exact value `1` and the identity is `0`.
  The spawning code only ever assigns the identity or the `PI` rotation and
  adds to `translation.x`, so this representation is exact.
* The panel mesh child spawned next to each joint (a `PbrBundle` cuboid,
  purely visual) is not modelled; the joint carries the whole motion state.
-/

namespace DoorSim

/-- `DoorState` component (`mod.rs` lines 109-115). -/
inductive DoorState where
  | Open
  | Closed
  | Opening
  | Closing
deriving DecidableEq, Repr

/-- `DoorGoal` component (`mod.rs` lines 134-138). -/
inductive DoorGoal where
  | Open
  | Closed
deriving DecidableEq, Repr

/-- `DoorType` enum (`mod.rs` lines 95-100). -/
inductive DoorType where
  | SingleSliding
  | DoubleSliding
  | SingleSwinging
  | DoubleSwinging
deriving DecidableEq, Repr

/-- The impl of equality between a `DoorState` and a `DoorGoal`
(`mod.rs` lines 123-131): `Open => other == Open`, `Closed => other == Closed`,
`_ => false`. -/
def stateEqGoal : DoorState → DoorGoal → Bool
  | DoorState.Open, g => g = DoorGoal.Open
  | DoorState.Closed, g => g = DoorGoal.Closed
  | _, _ => false

/-- The impl of equality between a `DoorGoal` and a `DoorState`
(`mod.rs` lines 146-153): `Open => other == Open`, `Closed => other == Closed`. -/
def goalEqState : DoorGoal → DoorState → Bool
  | DoorGoal.Open, s => s = DoorState.Open
  | DoorGoal.Closed, s => s = DoorState.Closed

/-- `DoorEvent` (`mod.rs` lines 22-26). -/
structure DoorEvent where
  name : String
  goal : DoorGoal
deriving DecidableEq, Repr

/-- `DoorEvent::open` (`mod.rs` lines 29-34). -/
def DoorEvent.openDoor (name : String) : DoorEvent :=
  { name := name, goal := DoorGoal.Open }

/-- `DoorEvent::close` (`mod.rs` lines 36-41). -/
def DoorEvent.closeDoor (name : String) : DoorEvent :=
  { name := name, goal := DoorGoal.Closed }

/-- `DoorProperties` component (`mod.rs` lines 57-62). -/
structure DoorProperties where
  name : String
  swing_value : ℚ
  door_type : DoorType
deriving DecidableEq, Repr

/-- `DoorDimensions` component (`mod.rs` lines 77-81). -/
structure DoorDimensions where
  length : ℚ
  height : ℚ
  thickness : ℚ
deriving DecidableEq, Repr

/-- A door entity's base `Transform`: translation components plus the rotation
about the vertical (y) axis in half-turns (see the module conventions). -/
structure Transform where
  x : ℚ
  y : ℚ
  z : ℚ
  rotYHalfTurns : ℚ
deriving DecidableEq, Repr

/-- A joint entity's `Transform`: the sliding offset is `translation.x`, and
the pure y-rotation is represented by its accumulated angle in radians. -/
structure JointTransform where
  offset : ℚ
  angle : ℚ
deriving DecidableEq, Repr

/-- The motion state attached to a joint entity: its `Transform`, `DoorState`
and `DoorGoal` components (`mod.rs` lines 237-243 set the defaults). -/
structure Leaf where
  jt : JointTransform
  state : DoorState
  goal : DoorGoal
deriving DecidableEq, Repr

/-- Rust `f32::signum`: `1.0` for positive or `+0.0`, `-1.0` for negative. -/
def signum (q : ℚ) : ℚ :=
  if q < 0 then -1 else 1

/-- An entity spawned by one run of the `spawn_door` match arm for one door:
either a fresh child door (`DoorBundle`, for the `Double*` arms) or a joint
carrying the motion components (for the `Single*` arms). -/
inductive SpawnedEntity where
  | childDoor (props : DoorProperties) (dims : DoorDimensions) (transform : Transform)
  | joint (state : DoorState) (goal : DoorGoal) (jt : JointTransform)
deriving DecidableEq, Repr

/-- The body of the `spawn_door` system for one door (`mod.rs` lines 183-281):
the list of entities spawned for a door with the given properties, dimensions
and base transform, in spawn order.

* `DoubleSliding` (lines 185-218): two child doors of type `SingleSliding`
  with swing values `-|s|/2` and `|s|/2`, length halved, the second offset by
  `length/2` on `translation.x`.
* `SingleSwinging | SingleSliding` (lines 219-245): one joint with default
  `Transform` (identity), default `DoorState` (`Closed`) and default
  `DoorGoal` (`Closed`), parented to the door entity.
* `DoubleSwinging` (lines 246-280): two child doors of type `SingleSwinging`
  with swing values `s` and `-s`, length halved, the second offset by the full
  `length` on `translation.x` and its rotation assigned
  `Quat::from_rotation_y(PI)` (one half-turn). -/
def spawn_door (props : DoorProperties) (dims : DoorDimensions)
    (transform : Transform) : List SpawnedEntity :=
  match props.door_type with
  | DoorType.DoubleSliding =>
    [ SpawnedEntity.childDoor
        { name := props.name, swing_value := -|props.swing_value| / 2,
          door_type := DoorType.SingleSliding }
        { length := dims.length / 2, height := dims.height,
          thickness := dims.thickness }
        transform,
      SpawnedEntity.childDoor
        { name := props.name, swing_value := |props.swing_value| / 2,
          door_type := DoorType.SingleSliding }
        { length := dims.length / 2, height := dims.height,
          thickness := dims.thickness }
        { transform with x := transform.x + dims.length / 2 } ]
  | DoorType.SingleSwinging | DoorType.SingleSliding =>
    [ SpawnedEntity.joint DoorState.Closed DoorGoal.Closed
        { offset := 0, angle := 0 } ]
  | DoorType.DoubleSwinging =>
    [ SpawnedEntity.childDoor
        { name := props.name, swing_value := props.swing_value,
          door_type := DoorType.SingleSwinging }
        { length := dims.length / 2, height := dims.height,
          thickness := dims.thickness }
        transform,
      SpawnedEntity.childDoor
        { name := props.name, swing_value := -props.swing_value,
          door_type := DoorType.SingleSwinging }
        { length := dims.length / 2, height := dims.height,
          thickness := dims.thickness }
        { transform with x := transform.x + dims.length,
                         rotYHalfTurns := 1 } ]

/-- The body of the `update_door_goal` system for one pending event and one
joint whose owning door's properties are `props` (`mod.rs` lines 291-320):
skip on name mismatch; an `Open` request sets the goal to `Open` only when the
state is `Closed`; a `Closed` request sets the goal to `Closed` only when the
state is `Open`; every other combination leaves the leaf untouched. -/
def update_door_goal_leaf (props : DoorProperties) (ev : DoorEvent)
    (leaf : Leaf) : Leaf :=
  if props.name ≠ ev.name then leaf
  else
    match ev.goal with
    | DoorGoal.Open =>
      if leaf.state = DoorState.Closed then { leaf with goal := DoorGoal.Open }
      else leaf
    | DoorGoal.Closed =>
      if leaf.state = DoorState.Open then { leaf with goal := DoorGoal.Closed }
      else leaf

/-- The body of the `update_door_movement` system for one joint whose owning
door's properties are `props` (`mod.rs` lines 328-394): skip when
`goal == state` (the `DoorGoal`-to-`DoorState` comparison); otherwise step the
sliding offset or the swinging angle by `0.01 * signum(swing_value)` toward
the goal, snapping to the exact boundary (`0` when closing within the `0.02`
tolerance, `swing_value` when opening at or beyond `|swing_value|`) and
recording the matching terminal state; door types other than `SingleSliding`
and `SingleSwinging` fall through unchanged (`_ => {}`). -/
def update_door_movement_leaf (props : DoorProperties) (leaf : Leaf) : Leaf :=
  if goalEqState leaf.goal leaf.state then leaf
  else
    match props.door_type with
    | DoorType.SingleSliding =>
      match leaf.goal with
      | DoorGoal.Closed =>
        if |leaf.jt.offset| ≤ 2 / 100 then
          { leaf with jt := { leaf.jt with offset := 0 },
                      state := DoorState.Closed }
        else
          { leaf with state := DoorState.Closing,
                      jt := { leaf.jt with
                        offset := leaf.jt.offset +
                          -(1 / 100) * signum props.swing_value } }
      | DoorGoal.Open =>
        if |leaf.jt.offset| ≥ |props.swing_value| then
          { leaf with jt := { leaf.jt with offset := props.swing_value },
                      state := DoorState.Open }
        else
          { leaf with state := DoorState.Opening,
                      jt := { leaf.jt with
                        offset := leaf.jt.offset +
                          1 / 100 * signum props.swing_value } }
    | DoorType.SingleSwinging =>
      match leaf.goal with
      | DoorGoal.Closed =>
        if |leaf.jt.angle| ≤ 2 / 100 then
          { leaf with jt := { leaf.jt with angle := 0 },
                      state := DoorState.Closed }
        else
          { leaf with state := DoorState.Closing,
                      jt := { leaf.jt with
                        angle := leaf.jt.angle +
                          -(1 / 100) * signum props.swing_value } }
      | DoorGoal.Open =>
        if |leaf.jt.angle| ≥ |props.swing_value| then
          { leaf with jt := { leaf.jt with angle := props.swing_value },
                      state := DoorState.Open }
        else
          { leaf with state := DoorState.Opening,
                      jt := { leaf.jt with
                        angle := leaf.jt.angle +
                          1 / 100 * signum props.swing_value } }
    | _ => leaf

/-- `n` consecutive runs of the motion integrator on one leaf. -/
def iterMove (props : DoorProperties) : ℕ → Leaf → Leaf
  | 0, l => l
  | n + 1, l => update_door_movement_leaf props (iterMove props n l)

/-- The `"door_1"` scenario door of `examples/single_sliding_door.rs`. -/
def props1 : DoorProperties :=
  { name := "door_1", swing_value := 1, door_type := DoorType.SingleSliding }

/-- A freshly spawned joint leaf: closed at the origin with goal `Closed`. -/
def leafClosed0 : Leaf :=
  { jt := { offset := 0, angle := 0 }, state := DoorState.Closed,
    goal := DoorGoal.Closed }

/-- The leaf of `"door_1"` right after the accepted `open` command:
still `Closed` at the origin, goal now `Open`. -/
def leafOpenGoal : Leaf :=
  { jt := { offset := 0, angle := 0 }, state := DoorState.Closed,
    goal := DoorGoal.Open }

lemma open_command_accepted :
    update_door_goal_leaf props1 (DoorEvent.openDoor "door_1") leafClosed0 =
      leafOpenGoal := by
  simp [update_door_goal_leaf, DoorEvent.openDoor, props1, leafClosed0,
    leafOpenGoal]

/-- The integrator skips a leaf whose goal already equals its state. -/
lemma move_skip (p : DoorProperties) (l : Leaf)
    (h : goalEqState l.goal l.state = true) :
    update_door_movement_leaf p l = l := by
  simp only [update_door_movement_leaf, h, if_true]

/-- Sliding leaf, goal `Open`, target reached: snap to `swing_value`. -/
lemma move_slide_open_snap (p : DoorProperties) (l : Leaf)
    (ht : p.door_type = DoorType.SingleSliding)
    (hg : l.goal = DoorGoal.Open) (hns : goalEqState l.goal l.state = false)
    (hge : |p.swing_value| ≤ |l.jt.offset|) :
    update_door_movement_leaf p l =
      { l with jt := { l.jt with offset := p.swing_value },
               state := DoorState.Open } := by
  rw [hg] at hns
  simp only [update_door_movement_leaf, hns, Bool.false_eq_true, if_false,
    ht, hg]
  rw [if_pos hge]

/-- Sliding leaf, goal `Open`, target not reached: advance one step. -/
lemma move_slide_open_step (p : DoorProperties) (l : Leaf)
    (ht : p.door_type = DoorType.SingleSliding)
    (hg : l.goal = DoorGoal.Open) (hns : goalEqState l.goal l.state = false)
    (hlt : |l.jt.offset| < |p.swing_value|) :
    update_door_movement_leaf p l =
      { l with state := DoorState.Opening,
               jt := { l.jt with
                 offset := l.jt.offset + 1 / 100 * signum p.swing_value } } := by
  rw [hg] at hns
  simp only [update_door_movement_leaf, hns, Bool.false_eq_true, if_false,
    ht, hg]
  rw [if_neg (not_le.mpr hlt)]

/-- Sliding leaf, goal `Closed`, inside the tolerance: snap to `0`. -/
lemma move_slide_closed_snap (p : DoorProperties) (l : Leaf)
    (ht : p.door_type = DoorType.SingleSliding)
    (hg : l.goal = DoorGoal.Closed) (hns : goalEqState l.goal l.state = false)
    (hle : |l.jt.offset| ≤ 2 / 100) :
    update_door_movement_leaf p l =
      { l with jt := { l.jt with offset := 0 },
               state := DoorState.Closed } := by
  rw [hg] at hns
  simp only [update_door_movement_leaf, hns, Bool.false_eq_true, if_false,
    ht, hg]
  rw [if_pos hle]

/-- Sliding leaf, goal `Closed`, outside the tolerance: step back. -/
lemma move_slide_closed_step (p : DoorProperties) (l : Leaf)
    (ht : p.door_type = DoorType.SingleSliding)
    (hg : l.goal = DoorGoal.Closed) (hns : goalEqState l.goal l.state = false)
    (hgt : 2 / 100 < |l.jt.offset|) :
    update_door_movement_leaf p l =
      { l with state := DoorState.Closing,
               jt := { l.jt with
                 offset := l.jt.offset +
                   -(1 / 100) * signum p.swing_value } } := by
  rw [hg] at hns
  simp only [update_door_movement_leaf, hns, Bool.false_eq_true, if_false,
    ht, hg]
  rw [if_neg (not_le.mpr hgt)]

/-- Swinging leaf, goal `Open`, target reached: snap to `swing_value`. -/
lemma move_swing_open_snap (p : DoorProperties) (l : Leaf)
    (ht : p.door_type = DoorType.SingleSwinging)
    (hg : l.goal = DoorGoal.Open) (hns : goalEqState l.goal l.state = false)
    (hge : |p.swing_value| ≤ |l.jt.angle|) :
    update_door_movement_leaf p l =
      { l with jt := { l.jt with angle := p.swing_value },
               state := DoorState.Open } := by
  rw [hg] at hns
  simp only [update_door_movement_leaf, hns, Bool.false_eq_true, if_false,
    ht, hg]
  rw [if_pos hge]

/-- Swinging leaf, goal `Open`, target not reached: advance one step. -/
lemma move_swing_open_step (p : DoorProperties) (l : Leaf)
    (ht : p.door_type = DoorType.SingleSwinging)
    (hg : l.goal = DoorGoal.Open) (hns : goalEqState l.goal l.state = false)
    (hlt : |l.jt.angle| < |p.swing_value|) :
    update_door_movement_leaf p l =
      { l with state := DoorState.Opening,
               jt := { l.jt with
                 angle := l.jt.angle + 1 / 100 * signum p.swing_value } } := by
  rw [hg] at hns
  simp only [update_door_movement_leaf, hns, Bool.false_eq_true, if_false,
    ht, hg]
  rw [if_neg (not_le.mpr hlt)]

/-- Swinging leaf, goal `Closed`, inside the tolerance: snap to identity. -/
lemma move_swing_closed_snap (p : DoorProperties) (l : Leaf)
    (ht : p.door_type = DoorType.SingleSwinging)
    (hg : l.goal = DoorGoal.Closed) (hns : goalEqState l.goal l.state = false)
    (hle : |l.jt.angle| ≤ 2 / 100) :
    update_door_movement_leaf p l =
      { l with jt := { l.jt with angle := 0 },
               state := DoorState.Closed } := by
  rw [hg] at hns
  simp only [update_door_movement_leaf, hns, Bool.false_eq_true, if_false,
    ht, hg]
  rw [if_pos hle]

/-- Swinging leaf, goal `Closed`, outside the tolerance: step back. -/
lemma move_swing_closed_step (p : DoorProperties) (l : Leaf)
    (ht : p.door_type = DoorType.SingleSwinging)
    (hg : l.goal = DoorGoal.Closed) (hns : goalEqState l.goal l.state = false)
    (hgt : 2 / 100 < |l.jt.angle|) :
    update_door_movement_leaf p l =
      { l with state := DoorState.Closing,
               jt := { l.jt with
                 angle := l.jt.angle +
                   -(1 / 100) * signum p.swing_value } } := by
  rw [hg] at hns
  simp only [update_door_movement_leaf, hns, Bool.false_eq_true, if_false,
    ht, hg]
  rw [if_neg (not_le.mpr hgt)]

lemma iterMove_succ (p : DoorProperties) (n : ℕ) (l : Leaf) :
    iterMove p (n + 1) l = update_door_movement_leaf p (iterMove p n l) := rfl

lemma abs_signum (q : ℚ) : |signum q| = 1 := by
  unfold signum
  split <;> norm_num

lemma iterMove_add (p : DoorProperties) (m n : ℕ) (l : Leaf) :
    iterMove p (m + n) l = iterMove p m (iterMove p n l) := by
  induction m with
  | zero => simp [iterMove]
  | succ m ih =>
    have : m + 1 + n = (m + n) + 1 := by omega
    rw [this, iterMove, iterMove, ih]

lemma iterMove_fix (p : DoorProperties) (l : Leaf)
    (h : update_door_movement_leaf p l = l) :
    ∀ n, iterMove p n l = l := by
  intro n
  induction n with
  | zero => rfl
  | succ n ih => rw [iterMove, ih, h]

/-- Closed form of the opening run of a sliding leaf: as long as `k` steps of
`0.01` still fit inside `|swing_value|`, the offset after `k` ticks is exactly
`k * 0.01 * signum swing_value` and the state is `Opening` (for `k ≥ 1`). -/
lemma open_run_slide (p : DoorProperties)
    (ht : p.door_type = DoorType.SingleSliding) :
    ∀ k : ℕ, (k : ℚ) / 100 ≤ |p.swing_value| →
      iterMove p k leafOpenGoal =
        if k = 0 then leafOpenGoal
        else
          { jt := { offset := (k : ℚ) / 100 * signum p.swing_value,
                    angle := 0 },
            state := DoorState.Opening, goal := DoorGoal.Open } := by
  intro k
  induction k with
  | zero => intro _; simp [iterMove]
  | succ k ih =>
    intro h
    push_cast at h
    have hk : (k : ℚ) / 100 ≤ |p.swing_value| := by
      have : (k : ℚ) / 100 ≤ ((k : ℚ) + 1) / 100 := by linarith
      linarith
    rw [iterMove_succ, ih hk]
    rcases Nat.eq_zero_or_pos k with hk0 | hkpos
    · subst hk0
      rw [if_pos rfl,
        move_slide_open_step p leafOpenGoal ht rfl (by decide)
          (by simp only [leafOpenGoal]; rw [abs_zero]; linarith)]
      simp only [leafOpenGoal, if_neg (Nat.succ_ne_zero 0)]
      push_cast
      norm_num
    · have hne : k ≠ 0 := Nat.pos_iff_ne_zero.mp hkpos
      have hlt : |(k : ℚ) / 100 * signum p.swing_value| < |p.swing_value| := by
        rw [abs_mul, abs_signum, mul_one, abs_of_nonneg (by positivity)]
        linarith
      rw [if_neg hne,
        move_slide_open_step p
          { jt := { offset := (k : ℚ) / 100 * signum p.swing_value,
                    angle := 0 },
            state := DoorState.Opening, goal := DoorGoal.Open }
          ht rfl rfl hlt]
      rw [if_neg (Nat.succ_ne_zero k)]
      push_cast
      ring_nf

/-- After 100 ticks the `"door_1"` leaf sits exactly at offset `1` but its
state is still `Opening`. -/
lemma open_run_props1_100 :
    iterMove props1 100 leafOpenGoal =
      { jt := { offset := 1, angle := 0 }, state := DoorState.Opening,
        goal := DoorGoal.Open } := by
  have h := open_run_slide props1 rfl 100 (by norm_num [props1])
  rw [h]
  norm_num [props1, signum]

/-- One further tick snaps the `"door_1"` leaf to `Open` at offset `1`. -/
lemma open_run_props1_101 :
    iterMove props1 101 leafOpenGoal =
      { jt := { offset := 1, angle := 0 }, state := DoorState.Open,
        goal := DoorGoal.Open } := by
  rw [show (101 : ℕ) = 100 + 1 from rfl, iterMove_succ, open_run_props1_100,
    move_slide_open_snap props1 _ rfl rfl (by decide) (by norm_num [props1])]
  norm_num [props1]

/-- The fully open `"door_1"` leaf is a fixed point of the integrator. -/
lemma open_fix_props1 :
    update_door_movement_leaf props1
      { jt := { offset := 1, angle := 0 }, state := DoorState.Open,
        goal := DoorGoal.Open } =
      { jt := { offset := 1, angle := 0 }, state := DoorState.Open,
        goal := DoorGoal.Open } :=
  move_skip _ _ (by decide)

/-- Offset of the `"door_1"` opening run in closed form, for every tick. -/
lemma open_run_props1_offset (k : ℕ) :
    (iterMove props1 k leafOpenGoal).jt.offset =
      if k ≤ 100 then (k : ℚ) / 100 else 1 := by
  rcases le_or_lt k 100 with hk | hk
  · rw [if_pos hk,
      open_run_slide props1 rfl k
        (by rw [show |props1.swing_value| = 1 by norm_num [props1]]
            rw [div_le_one (by norm_num)]
            exact_mod_cast hk)]
    rcases Nat.eq_zero_or_pos k with hk0 | hkpos
    · subst hk0; simp [leafOpenGoal]
    · rw [if_neg (Nat.pos_iff_ne_zero.mp hkpos)]
      norm_num [props1, signum]
  · rw [if_neg (by omega), show k = (k - 101) + 101 by omega, iterMove_add,
      open_run_props1_101, iterMove_fix _ _ open_fix_props1]

/-- The `"door_1"` leaf fully open with goal flipped to `Closed` by an
accepted `close` command. -/
def leafCloseGoal : Leaf :=
  { jt := { offset := 1, angle := 0 }, state := DoorState.Open,
    goal := DoorGoal.Closed }

lemma close_command_accepted :
    update_door_goal_leaf props1 (DoorEvent.closeDoor "door_1")
      { jt := { offset := 1, angle := 0 }, state := DoorState.Open,
        goal := DoorGoal.Open } = leafCloseGoal := by
  simp [update_door_goal_leaf, DoorEvent.closeDoor, props1, leafCloseGoal]

/-- Closed form of the closing run of the `"door_1"` leaf: for `1 ≤ k ≤ 98`
the offset after `k` ticks is `1 - k * 0.01` and the state is `Closing`. -/
lemma close_run_props1 :
    ∀ k : ℕ, k ≤ 98 →
      iterMove props1 k leafCloseGoal =
        if k = 0 then leafCloseGoal
        else
          { jt := { offset := 1 - (k : ℚ) / 100, angle := 0 },
            state := DoorState.Closing, goal := DoorGoal.Closed } := by
  intro k
  induction k with
  | zero => intro _; simp [iterMove]
  | succ k ih =>
    intro h
    have hk : k ≤ 98 := by omega
    rw [iterMove_succ, ih hk]
    rcases Nat.eq_zero_or_pos k with hk0 | hkpos
    · subst hk0
      rw [if_pos rfl,
        move_slide_closed_step props1 leafCloseGoal rfl rfl rfl
          (by norm_num [leafCloseGoal])]
      rw [if_neg (Nat.succ_ne_zero 0)]
      norm_num [leafCloseGoal, props1, signum]
    · have hne : k ≠ 0 := Nat.pos_iff_ne_zero.mp hkpos
      have hkle : (k : ℚ) ≤ 97 := by
        have : k ≤ 97 := by omega
        exact_mod_cast this
      have hgt : 2 / 100 < |(1 : ℚ) - (k : ℚ) / 100| := by
        rw [abs_of_nonneg (by linarith)]
        linarith
      rw [if_neg hne,
        move_slide_closed_step props1
          { jt := { offset := 1 - (k : ℚ) / 100, angle := 0 },
            state := DoorState.Closing, goal := DoorGoal.Closed }
          rfl rfl rfl hgt]
      rw [if_neg (Nat.succ_ne_zero k)]
      push_cast
      norm_num [props1, signum]
      ring_nf

/-- Tick 99 of the closing run snaps the `"door_1"` leaf to exactly `0`. -/
lemma close_run_props1_99 :
    iterMove props1 99 leafCloseGoal =
      { jt := { offset := 0, angle := 0 }, state := DoorState.Closed,
        goal := DoorGoal.Closed } := by
  rw [show (99 : ℕ) = 98 + 1 from rfl, iterMove_succ,
    close_run_props1 98 (le_refl 98)]
  rw [if_neg (by omega)]
  push_cast
  rw [move_slide_closed_snap props1
    { jt := { offset := 1 - (98 : ℚ) / 100, angle := 0 },
      state := DoorState.Closing, goal := DoorGoal.Closed }
    rfl rfl rfl (by rw [abs_of_nonneg (by norm_num)]; norm_num)]

/-- A `SingleSliding` door with `swing_value = 0`. -/
def propsZ (nm : String) : DoorProperties :=
  { name := nm, swing_value := 0, door_type := DoorType.SingleSliding }

/-- A leaf caught mid-opening at offset `1/2` on door `"door_1"`. -/
def leafMid : Leaf :=
  { jt := { offset := 1 / 2, angle := 0 }, state := DoorState.Opening,
    goal := DoorGoal.Open }

/-- C1 (counterexample): on door `"door_1"` (`SingleSliding`,
`swing_value = 1`), after the accepted `open` command, 100 integrator ticks
leave the offset at exactly `1` but the state at `Opening`, not `Open`:
the claimed `state = Open` after `ceil(|swing_value|/step) = 100` ticks is
false. -/
theorem open_after_100_ticks_cex :
    (iterMove props1 100
        (update_door_goal_leaf props1 (DoorEvent.openDoor "door_1")
          leafClosed0)).jt.offset = 1 ∧
    (iterMove props1 100
        (update_door_goal_leaf props1 (DoorEvent.openDoor "door_1")
          leafClosed0)).state = DoorState.Opening ∧
    DoorState.Opening ≠ DoorState.Open := by
  rw [open_command_accepted, open_run_props1_100]
  exact ⟨rfl, rfl, by decide⟩

/-- C1 (amended): on door `"door_1"` (`SingleSliding`, `swing_value = 1`),
the accepted `open` command sets the goal to `Open`; the integrator then moves
the offset monotonically by `0.01` per tick with no overshoot past `1`; after
100 ticks the offset is exactly `1` with state `Opening`, and after 101 ticks
(one more than `ceil(|swing_value| / step)`) the state is exactly `Open` at
offset `1`. -/
theorem open_convergence_amended :
    (update_door_goal_leaf props1 (DoorEvent.openDoor "door_1") leafClosed0 =
        leafOpenGoal ∧ leafOpenGoal.goal = DoorGoal.Open) ∧
    (∀ k : ℕ, k ≤ 100 →
      (iterMove props1 k leafOpenGoal).jt.offset = (k : ℚ) / 100) ∧
    (∀ k : ℕ, (iterMove props1 k leafOpenGoal).jt.offset ≤
      (iterMove props1 (k + 1) leafOpenGoal).jt.offset) ∧
    (∀ k : ℕ, (iterMove props1 k leafOpenGoal).jt.offset ≤ 1) ∧
    (iterMove props1 100 leafOpenGoal).jt.offset = 1 ∧
    (iterMove props1 100 leafOpenGoal).state = DoorState.Opening ∧
    iterMove props1 101 leafOpenGoal =
      { jt := { offset := 1, angle := 0 }, state := DoorState.Open,
        goal := DoorGoal.Open } := by
  refine ⟨⟨open_command_accepted, rfl⟩, ?_, ?_, ?_, ?_, ?_,
    open_run_props1_101⟩
  · intro k hk
    rw [open_run_props1_offset, if_pos hk]
  · intro k
    rw [open_run_props1_offset, open_run_props1_offset]
    by_cases h1 : k + 1 ≤ 100
    · rw [if_pos (by omega), if_pos h1]
      have hc : (k : ℚ) ≤ ((k : ℚ) + 1) := by linarith
      push_cast
      linarith
    · by_cases h0 : k ≤ 100
      · rw [if_pos h0, if_neg h1]
        have : k = 100 := by omega
        subst this
        norm_num
      · rw [if_neg h0, if_neg h1]
  · intro k
    rw [open_run_props1_offset]
    by_cases h : k ≤ 100
    · rw [if_pos h, div_le_one (by norm_num)]
      exact_mod_cast h
    · rw [if_neg h]
  · rw [open_run_props1_100]
  · rw [open_run_props1_100]

/-- C1 (witness): the amended convergence theorem at tick 50. -/
theorem open_convergence_witness :
    (iterMove props1 50 leafOpenGoal).jt.offset = ((50 : ℕ) : ℚ) / 100 :=
  open_convergence_amended.2.1 50 (by norm_num)

/-- C2: the command router's goal gating, exactly: an `Open` request flips
the goal exactly when the state is `Closed`, a `Closed` request exactly when
the state is `Open`; all other combinations, including a name mismatch, leave
the leaf untouched (the function is total, so no error is raised). -/
theorem goal_gating (p : DoorProperties) (ev : DoorEvent) (l : Leaf) :
    (p.name = ev.name → ev.goal = DoorGoal.Open →
      l.state = DoorState.Closed →
      update_door_goal_leaf p ev l = { l with goal := DoorGoal.Open }) ∧
    (p.name = ev.name → ev.goal = DoorGoal.Open →
      l.state ≠ DoorState.Closed → update_door_goal_leaf p ev l = l) ∧
    (p.name = ev.name → ev.goal = DoorGoal.Closed →
      l.state = DoorState.Open →
      update_door_goal_leaf p ev l = { l with goal := DoorGoal.Closed }) ∧
    (p.name = ev.name → ev.goal = DoorGoal.Closed →
      l.state ≠ DoorState.Open → update_door_goal_leaf p ev l = l) ∧
    (p.name ≠ ev.name → update_door_goal_leaf p ev l = l) := by
  refine ⟨fun h1 h2 h3 => ?_, fun h1 h2 h3 => ?_, fun h1 h2 h3 => ?_,
    fun h1 h2 h3 => ?_, fun h1 => ?_⟩
  · simp [update_door_goal_leaf, h1, h2, h3]
  · simp [update_door_goal_leaf, h1, h2, h3]
  · simp [update_door_goal_leaf, h1, h2, h3]
  · simp [update_door_goal_leaf, h1, h2, h3]
  · simp [update_door_goal_leaf, h1]

/-- C2 (witness): an `open` command delivered to a leaf already `Opening`
leaves it unchanged. -/
theorem goal_gating_witness :
    update_door_goal_leaf props1 (DoorEvent.openDoor "door_1")
      { jt := { offset := 0, angle := 0 }, state := DoorState.Opening,
        goal := DoorGoal.Open } =
      { jt := { offset := 0, angle := 0 }, state := DoorState.Opening,
        goal := DoorGoal.Open } :=
  (goal_gating props1 (DoorEvent.openDoor "door_1") _).2.1 rfl rfl (by decide)

/-- C3 (counterexample): on door `"door_1"`, a leaf `Opening` at offset `1/2`
that receives a `close` command keeps goal `Open` (the router gates `close`
on `state = Open`), and the very next integrator tick moves the offset UP to
`51/100` — it does not begin decreasing. -/
theorem close_while_opening_cex :
    (update_door_goal_leaf props1 (DoorEvent.closeDoor "door_1")
        leafMid).goal = DoorGoal.Open ∧
    (update_door_movement_leaf props1
        (update_door_goal_leaf props1 (DoorEvent.closeDoor "door_1")
          leafMid)).jt.offset = 51 / 100 ∧
    ¬((51 : ℚ) / 100 < 1 / 2) := by
  have hev : update_door_goal_leaf props1 (DoorEvent.closeDoor "door_1")
      leafMid = leafMid := by
    simp [update_door_goal_leaf, props1, DoorEvent.closeDoor, leafMid]
  refine ⟨by rw [hev]; rfl, ?_, by norm_num⟩
  rw [hev, move_slide_open_step props1 leafMid rfl rfl rfl
    (by simp only [leafMid]
        rw [show props1.swing_value = 1 from rfl,
          abs_of_nonneg (by norm_num : (0 : ℚ) ≤ 1 / 2), abs_one]
        norm_num)]
  simp only [leafMid]
  norm_num [props1, signum]

/-- C3 (amended): delivering a `close` command to a sliding leaf in state
`Opening` (strictly inside its travel) leaves the leaf entirely unchanged —
the router only accepts `close` when the state is `Open` — so the next
integrator tick continues to advance the offset by `+0.01 * signum
swing_value` with state `Opening`; no reversal and no position discontinuity
occurs. -/
theorem close_while_opening_amended (p : DoorProperties) (ev : DoorEvent)
    (l : Leaf) (ht : p.door_type = DoorType.SingleSliding)
    (hs : l.state = DoorState.Opening) (hg : l.goal = DoorGoal.Open)
    (hev : ev.goal = DoorGoal.Closed)
    (hlt : |l.jt.offset| < |p.swing_value|) :
    update_door_goal_leaf p ev l = l ∧
    (update_door_movement_leaf p
        (update_door_goal_leaf p ev l)).jt.offset =
      l.jt.offset + 1 / 100 * signum p.swing_value ∧
    (update_door_movement_leaf p
        (update_door_goal_leaf p ev l)).state = DoorState.Opening := by
  have h1 : update_door_goal_leaf p ev l = l := by
    by_cases hn : p.name = ev.name
    · simp [update_door_goal_leaf, hn, hev, hs]
    · simp [update_door_goal_leaf, hn]
  have hns : goalEqState l.goal l.state = false := by rw [hg, hs]; rfl
  refine ⟨h1, ?_, ?_⟩ <;>
    rw [h1, move_slide_open_step p l ht hg hns hlt]

/-- C3 (witness): the amended no-reversal theorem on `"door_1"` at offset
`3/10`. -/
theorem close_while_opening_witness :
    (update_door_movement_leaf props1
        (update_door_goal_leaf props1 (DoorEvent.closeDoor "door_1")
          { jt := { offset := 3 / 10, angle := 0 },
            state := DoorState.Opening,
            goal := DoorGoal.Open })).jt.offset =
      3 / 10 + 1 / 100 * signum props1.swing_value :=
  (close_while_opening_amended props1 (DoorEvent.closeDoor "door_1")
    { jt := { offset := 3 / 10, angle := 0 }, state := DoorState.Opening,
      goal := DoorGoal.Open }
    rfl rfl rfl rfl
    (by show |(3 / 10 : ℚ)| < |props1.swing_value|
        rw [show props1.swing_value = 1 from rfl,
          abs_of_nonneg (by norm_num : (0 : ℚ) ≤ 3 / 10), abs_one]
        norm_num)).2.1

/-- C7: the goal-compatibility relation is exactly the table of the two
`PartialEq` impls — `Open ≡ Open`, `Closed ≡ Closed`, `Opening`/`Closing`
equal no goal, symmetric in the comparison direction — and every leaf whose
goal equals its state under it is returned untouched by the integrator
(neither state nor transform written). -/
theorem goal_compat_skip :
    (∀ (s : DoorState) (g : DoorGoal),
      stateEqGoal s g = goalEqState g s ∧
      (stateEqGoal s g = true ↔
        (s = DoorState.Open ∧ g = DoorGoal.Open) ∨
        (s = DoorState.Closed ∧ g = DoorGoal.Closed))) ∧
    (∀ (p : DoorProperties) (l : Leaf),
      goalEqState l.goal l.state = true →
      update_door_movement_leaf p l = l) := by
  exact ⟨fun s g => by cases s <;> cases g <;> simp [stateEqGoal, goalEqState],
    fun p l h => move_skip p l h⟩

/-- C7 (witness): an `Open`/`Open` leaf at an arbitrary transform is passed
through the integrator bit-for-bit. -/
theorem goal_compat_skip_witness :
    update_door_movement_leaf props1
      { jt := { offset := 5, angle := 7 }, state := DoorState.Open,
        goal := DoorGoal.Open } =
      { jt := { offset := 5, angle := 7 }, state := DoorState.Open,
        goal := DoorGoal.Open } :=
  goal_compat_skip.2 props1 _ rfl

/-- C10: for a `SingleSliding` door with `swing_value = 0`, an accepted
`open` command is followed by a first tick that immediately snaps the leaf to
`state = Open` with offset exactly `0`, and no tick ever exhibits the
transitional `Opening` state. -/
theorem zero_swing_open_immediate (nm : String) :
    (update_door_goal_leaf (propsZ nm) (DoorEvent.openDoor nm)
        leafClosed0).goal = DoorGoal.Open ∧
    update_door_movement_leaf (propsZ nm)
        (update_door_goal_leaf (propsZ nm) (DoorEvent.openDoor nm)
          leafClosed0) =
      { jt := { offset := 0, angle := 0 }, state := DoorState.Open,
        goal := DoorGoal.Open } ∧
    ∀ k : ℕ,
      (iterMove (propsZ nm) k
          (update_door_goal_leaf (propsZ nm) (DoorEvent.openDoor nm)
            leafClosed0)).state ≠ DoorState.Opening := by
  have hev : update_door_goal_leaf (propsZ nm) (DoorEvent.openDoor nm)
      leafClosed0 = leafOpenGoal := by
    simp [update_door_goal_leaf, propsZ, DoorEvent.openDoor, leafClosed0,
      leafOpenGoal]
  have htick : update_door_movement_leaf (propsZ nm) leafOpenGoal =
      { jt := { offset := 0, angle := 0 }, state := DoorState.Open,
        goal := DoorGoal.Open } := by
    rw [move_slide_open_snap (propsZ nm) leafOpenGoal rfl rfl rfl
      (by simp [propsZ, leafOpenGoal])]
    simp [propsZ, leafOpenGoal]
  have hfix : update_door_movement_leaf (propsZ nm)
      { jt := { offset := 0, angle := 0 }, state := DoorState.Open,
        goal := DoorGoal.Open } =
      { jt := { offset := 0, angle := 0 }, state := DoorState.Open,
        goal := DoorGoal.Open } := move_skip _ _ rfl
  refine ⟨by rw [hev]; rfl, by rw [hev, htick], ?_⟩
  intro k
  rw [hev]
  match k with
  | 0 => simp [iterMove, leafOpenGoal]
  | m + 1 =>
    rw [show m + 1 = m + 1 from rfl, iterMove_add (propsZ nm) m 1,
      show iterMove (propsZ nm) 1 leafOpenGoal =
        update_door_movement_leaf (propsZ nm) leafOpenGoal from rfl,
      htick, iterMove_fix _ _ hfix]
    decide

/-- The first (negative-travel) child door of the `"door_2"` double-sliding
scenario (length 2, swing 1). -/
def pNeg : DoorProperties :=
  { name := "door_2", swing_value := -(1 : ℚ) / 2,
    door_type := DoorType.SingleSliding }

/-- The second (positive-travel) child door of the `"door_2"` scenario. -/
def pPos : DoorProperties :=
  { name := "door_2", swing_value := (1 : ℚ) / 2,
    door_type := DoorType.SingleSliding }

lemma open_run_pNeg_51 :
    iterMove pNeg 51 leafOpenGoal =
      { jt := { offset := -(1 : ℚ) / 2, angle := 0 },
        state := DoorState.Open, goal := DoorGoal.Open } := by
  have habs : |pNeg.swing_value| = 1 / 2 := by
    rw [show pNeg.swing_value = -(1 : ℚ) / 2 from rfl, neg_div, abs_neg,
      abs_of_nonneg (by norm_num : (0 : ℚ) ≤ 1 / 2)]
  have hsig : signum pNeg.swing_value = -1 := by
    rw [show pNeg.swing_value = -(1 : ℚ) / 2 from rfl]
    norm_num [signum]
  have h50 := open_run_slide pNeg rfl 50 (by rw [habs]; norm_num)
  rw [if_neg (by omega), hsig] at h50
  have h50e : iterMove pNeg 50 leafOpenGoal =
      { jt := { offset := -(1 : ℚ) / 2, angle := 0 },
        state := DoorState.Opening, goal := DoorGoal.Open } := by
    rw [h50]
    norm_num
  rw [show (51 : ℕ) = 50 + 1 from rfl, iterMove_succ, h50e,
    move_slide_open_snap pNeg
      { jt := { offset := -(1 : ℚ) / 2, angle := 0 },
        state := DoorState.Opening, goal := DoorGoal.Open }
      rfl rfl rfl
      (by rw [habs]
          show (1 : ℚ) / 2 ≤ |(-(1 : ℚ) / 2)|
          rw [neg_div, abs_neg,
            abs_of_nonneg (by norm_num : (0 : ℚ) ≤ 1 / 2)])]
  norm_num [pNeg]

lemma open_run_pPos_51 :
    iterMove pPos 51 leafOpenGoal =
      { jt := { offset := (1 : ℚ) / 2, angle := 0 },
        state := DoorState.Open, goal := DoorGoal.Open } := by
  have habs : |pPos.swing_value| = 1 / 2 := by
    rw [show pPos.swing_value = (1 : ℚ) / 2 from rfl,
      abs_of_nonneg (by norm_num : (0 : ℚ) ≤ 1 / 2)]
  have hsig : signum pPos.swing_value = 1 := by
    rw [show pPos.swing_value = (1 : ℚ) / 2 from rfl]
    norm_num [signum]
  have h50 := open_run_slide pPos rfl 50 (by rw [habs]; norm_num)
  rw [if_neg (by omega), hsig] at h50
  have h50e : iterMove pPos 50 leafOpenGoal =
      { jt := { offset := (1 : ℚ) / 2, angle := 0 },
        state := DoorState.Opening, goal := DoorGoal.Open } := by
    rw [h50]
    norm_num
  rw [show (51 : ℕ) = 50 + 1 from rfl, iterMove_succ, h50e,
    move_slide_open_snap pPos
      { jt := { offset := (1 : ℚ) / 2, angle := 0 },
        state := DoorState.Opening, goal := DoorGoal.Open }
      rfl rfl rfl
      (by rw [habs]
          show (1 : ℚ) / 2 ≤ |((1 : ℚ) / 2)|
          rw [abs_of_nonneg (by norm_num : (0 : ℚ) ≤ 1 / 2)])]
  norm_num [pPos]

/-- C4: resolving a `DoubleSliding` door yields exactly two `SingleSliding`
child doors with length halved, swing magnitudes `|s|/2` of opposite sign
(negative first), the second offset by `+length/2` on the door's
x-translation; each child then resolves to exactly one sliding joint leaf;
and in the `"door_2"` scenario (swing 1) opening drives the two leaves to
exactly `-1/2` and `+1/2`. -/
theorem double_sliding_resolution (p : DoorProperties)
    (dm : DoorDimensions) (t : Transform)
    (ht : p.door_type = DoorType.DoubleSliding) :
    spawn_door p dm t =
      [ SpawnedEntity.childDoor
          { name := p.name, swing_value := -|p.swing_value| / 2,
            door_type := DoorType.SingleSliding }
          { length := dm.length / 2, height := dm.height,
            thickness := dm.thickness } t,
        SpawnedEntity.childDoor
          { name := p.name, swing_value := |p.swing_value| / 2,
            door_type := DoorType.SingleSliding }
          { length := dm.length / 2, height := dm.height,
            thickness := dm.thickness }
          { t with x := t.x + dm.length / 2 } ] ∧
    -|p.swing_value| / 2 = -(|p.swing_value| / 2) ∧
    (p.swing_value ≠ 0 →
      -|p.swing_value| / 2 < 0 ∧ 0 < |p.swing_value| / 2) ∧
    (∀ (dm2 : DoorDimensions) (t2 : Transform) (nm : String) (sv : ℚ),
      spawn_door
          { name := nm, swing_value := sv,
            door_type := DoorType.SingleSliding } dm2 t2 =
        [SpawnedEntity.joint DoorState.Closed DoorGoal.Closed
          { offset := 0, angle := 0 }]) ∧
    iterMove pNeg 51 leafOpenGoal =
      { jt := { offset := -(1 : ℚ) / 2, angle := 0 },
        state := DoorState.Open, goal := DoorGoal.Open } ∧
    iterMove pPos 51 leafOpenGoal =
      { jt := { offset := (1 : ℚ) / 2, angle := 0 },
        state := DoorState.Open, goal := DoorGoal.Open } := by
  refine ⟨by simp [spawn_door, ht], by ring, ?_,
    fun dm2 t2 nm sv => by simp [spawn_door],
    open_run_pNeg_51, open_run_pPos_51⟩
  intro h
  have habs : 0 < |p.swing_value| := abs_pos.mpr h
  constructor <;> linarith

/-- The `"door_2"` parent double-sliding door of the scenario. -/
def p4 : DoorProperties :=
  { name := "door_2", swing_value := 1, door_type := DoorType.DoubleSliding }

/-- The `"door_2"` scenario dimensions (length 2). -/
def dm4 : DoorDimensions := { length := 2, height := 2, thickness := 1 }

/-- An identity base transform. -/
def t0 : Transform := { x := 0, y := 0, z := 0, rotYHalfTurns := 0 }

/-- C4 (witness): the resolution theorem applied to the concrete `"door_2"`
door. -/
theorem double_sliding_resolution_witness :
    -|p4.swing_value| / 2 = -(|p4.swing_value| / 2) :=
  (double_sliding_resolution p4 dm4 t0 rfl).2.1

/-- A concrete `DoubleSwinging` door whose height and thickness distinguish
halving from inheritance. -/
def p5 : DoorProperties :=
  { name := "d5", swing_value := 2, door_type := DoorType.DoubleSwinging }

/-- Dimensions of the `p5` door: length 2, height 3, thickness 1. -/
def dm5 : DoorDimensions := { length := 2, height := 3, thickness := 1 }

/-- C5 (counterexample): resolving the `p5` `DoubleSwinging` door yields
children whose height (3) and thickness (1) are inherited unchanged, so the
claimed fully-halved dimensions (height `3/2`, thickness `1/2`) are not what
the resolver produces. -/
theorem double_swinging_dims_cex :
    spawn_door p5 dm5 t0 =
      [ SpawnedEntity.childDoor
          { name := "d5", swing_value := 2,
            door_type := DoorType.SingleSwinging }
          { length := 1, height := 3, thickness := 1 } t0,
        SpawnedEntity.childDoor
          { name := "d5", swing_value := -2,
            door_type := DoorType.SingleSwinging }
          { length := 1, height := 3, thickness := 1 }
          { x := 2, y := 0, z := 0, rotYHalfTurns := 1 } ] ∧
    ({ length := 1, height := 3, thickness := 1 } : DoorDimensions) ≠
      { length := 1, height := 3 / 2, thickness := 1 / 2 } := by
  constructor
  · simp [spawn_door, p5, dm5, t0]
  · intro h
    rw [DoorDimensions.mk.injEq] at h
    norm_num at h

/-- C5 (amended): resolving a `DoubleSwinging` door yields exactly two
`SingleSwinging` child doors with swing values `s` and `-s` (equal magnitude,
opposite sign when `s ≠ 0`), length halved but height and thickness inherited
unchanged, the second offset by the full parent length on the x-translation
with its rotation set to 180° about the vertical axis; each child then
resolves to exactly one swinging joint leaf. -/
theorem double_swinging_resolution_amended (p : DoorProperties)
    (dm : DoorDimensions) (t : Transform)
    (ht : p.door_type = DoorType.DoubleSwinging) :
    spawn_door p dm t =
      [ SpawnedEntity.childDoor
          { name := p.name, swing_value := p.swing_value,
            door_type := DoorType.SingleSwinging }
          { length := dm.length / 2, height := dm.height,
            thickness := dm.thickness } t,
        SpawnedEntity.childDoor
          { name := p.name, swing_value := -p.swing_value,
            door_type := DoorType.SingleSwinging }
          { length := dm.length / 2, height := dm.height,
            thickness := dm.thickness }
          { x := t.x + dm.length, y := t.y, z := t.z,
            rotYHalfTurns := 1 } ] ∧
    |(-p.swing_value : ℚ)| = |p.swing_value| ∧
    (p.swing_value ≠ 0 →
      (0 < p.swing_value ∧ -p.swing_value < 0) ∨
      (p.swing_value < 0 ∧ 0 < -p.swing_value)) ∧
    (∀ (dm2 : DoorDimensions) (t2 : Transform) (nm : String) (sv : ℚ),
      spawn_door
          { name := nm, swing_value := sv,
            door_type := DoorType.SingleSwinging } dm2 t2 =
        [SpawnedEntity.joint DoorState.Closed DoorGoal.Closed
          { offset := 0, angle := 0 }]) := by
  refine ⟨by simp [spawn_door, ht], abs_neg p.swing_value, ?_,
    fun dm2 t2 nm sv => by simp [spawn_door]⟩
  intro h
  rcases lt_or_gt_of_ne h with hlt | hgt
  · right
    exact ⟨hlt, by linarith⟩
  · left
    exact ⟨hgt, by linarith⟩

/-- C5 (witness): the amended resolution theorem applied to the concrete
`p5` door. -/
theorem double_swinging_resolution_witness :
    |(-p5.swing_value : ℚ)| = |p5.swing_value| :=
  (double_swinging_resolution_amended p5 dm5 t0 rfl).2.1

/-- A sliding-leaf tick can only report `Closed` by snapping the offset to
exactly `0`, or by passing an already-`Closed` leaf through unchanged. -/
lemma slide_tick_closed_inv (p : DoorProperties) (l : Leaf)
    (ht : p.door_type = DoorType.SingleSliding)
    (h : (update_door_movement_leaf p l).state = DoorState.Closed) :
    (update_door_movement_leaf p l).jt.offset = 0 ∨
      (update_door_movement_leaf p l = l ∧ l.state = DoorState.Closed) := by
  by_cases hskip : goalEqState l.goal l.state = true
  · rw [move_skip p l hskip] at h ⊢
    exact Or.inr ⟨rfl, h⟩
  · have hns : goalEqState l.goal l.state = false := by
      revert hskip
      cases goalEqState l.goal l.state <;> simp
    cases hg : l.goal with
    | Open =>
      by_cases hcond : |p.swing_value| ≤ |l.jt.offset|
      · rw [move_slide_open_snap p l ht hg hns hcond] at h
        simp at h
      · rw [move_slide_open_step p l ht hg hns (not_le.mp hcond)] at h
        simp at h
    | Closed =>
      by_cases hcond : |l.jt.offset| ≤ 2 / 100
      · left
        rw [move_slide_closed_snap p l ht hg hns hcond]
      · rw [move_slide_closed_step p l ht hg hns (not_le.mp hcond)] at h
        simp at h

/-- Swinging analogue of `slide_tick_closed_inv` for the angle. -/
lemma swing_tick_closed_inv (p : DoorProperties) (l : Leaf)
    (ht : p.door_type = DoorType.SingleSwinging)
    (h : (update_door_movement_leaf p l).state = DoorState.Closed) :
    (update_door_movement_leaf p l).jt.angle = 0 ∨
      (update_door_movement_leaf p l = l ∧ l.state = DoorState.Closed) := by
  by_cases hskip : goalEqState l.goal l.state = true
  · rw [move_skip p l hskip] at h ⊢
    exact Or.inr ⟨rfl, h⟩
  · have hns : goalEqState l.goal l.state = false := by
      revert hskip
      cases goalEqState l.goal l.state <;> simp
    cases hg : l.goal with
    | Open =>
      by_cases hcond : |p.swing_value| ≤ |l.jt.angle|
      · rw [move_swing_open_snap p l ht hg hns hcond] at h
        simp at h
      · rw [move_swing_open_step p l ht hg hns (not_le.mp hcond)] at h
        simp at h
    | Closed =>
      by_cases hcond : |l.jt.angle| ≤ 2 / 100
      · left
        rw [move_swing_closed_snap p l ht hg hns hcond]
      · rw [move_swing_closed_step p l ht hg hns (not_le.mp hcond)] at h
        simp at h

/-- Once a run of a sliding leaf that did not start `Closed` reports
`Closed`, its offset is exactly `0`. -/
lemma closed_run_offset_zero (p : DoorProperties)
    (ht : p.door_type = DoorType.SingleSliding) (l : Leaf)
    (hs : l.state ≠ DoorState.Closed) :
    ∀ n : ℕ, (iterMove p n l).state = DoorState.Closed →
      (iterMove p n l).jt.offset = 0 := by
  intro n
  induction n with
  | zero => intro h; exact absurd h hs
  | succ n ih =>
    intro h
    rw [iterMove_succ] at h ⊢
    rcases slide_tick_closed_inv p (iterMove p n l) ht h with h0 | ⟨heq, hcl⟩
    · exact h0
    · rw [heq]
      exact ih hcl

/-- Swinging analogue of `closed_run_offset_zero` for the angle. -/
lemma closed_run_angle_zero (p : DoorProperties)
    (ht : p.door_type = DoorType.SingleSwinging) (l : Leaf)
    (hs : l.state ≠ DoorState.Closed) :
    ∀ n : ℕ, (iterMove p n l).state = DoorState.Closed →
      (iterMove p n l).jt.angle = 0 := by
  intro n
  induction n with
  | zero => intro h; exact absurd h hs
  | succ n ih =>
    intro h
    rw [iterMove_succ] at h ⊢
    rcases swing_tick_closed_inv p (iterMove p n l) ht h with h0 | ⟨heq, hcl⟩
    · exact h0
    · rw [heq]
      exact ih hcl

/-- C6: round-trip exactness — starting from the freshly spawned leaf, an
accepted `open`, any number of ticks until `state = Open`, an accepted
`close`, and any number of ticks until `state = Closed` leave a sliding leaf
at exactly offset `0` and a swinging leaf at exactly the identity rotation
(angle `0`), because `Closed` is only ever reported together with the exact
snap. -/
theorem round_trip_exact (p : DoorProperties) (m n : ℕ)
    (hm : (iterMove p m
        (update_door_goal_leaf p (DoorEvent.openDoor p.name)
          leafClosed0)).state = DoorState.Open)
    (hn : (iterMove p n
        (update_door_goal_leaf p (DoorEvent.closeDoor p.name)
          (iterMove p m
            (update_door_goal_leaf p (DoorEvent.openDoor p.name)
              leafClosed0)))).state = DoorState.Closed) :
    (p.door_type = DoorType.SingleSliding →
      (iterMove p n
          (update_door_goal_leaf p (DoorEvent.closeDoor p.name)
            (iterMove p m
              (update_door_goal_leaf p (DoorEvent.openDoor p.name)
                leafClosed0)))).jt.offset = 0) ∧
    (p.door_type = DoorType.SingleSwinging →
      (iterMove p n
          (update_door_goal_leaf p (DoorEvent.closeDoor p.name)
            (iterMove p m
              (update_door_goal_leaf p (DoorEvent.openDoor p.name)
                leafClosed0)))).jt.angle = 0) := by
  set lM := iterMove p m
    (update_door_goal_leaf p (DoorEvent.openDoor p.name) leafClosed0)
    with hlM
  have hstep : update_door_goal_leaf p (DoorEvent.closeDoor p.name) lM =
      { lM with goal := DoorGoal.Closed } := by
    simp [update_door_goal_leaf, DoorEvent.closeDoor, hm]
  have hC : (update_door_goal_leaf p (DoorEvent.closeDoor p.name)
      lM).state ≠ DoorState.Closed := by
    rw [hstep]
    show lM.state ≠ DoorState.Closed
    rw [hm]
    decide
  exact ⟨fun ht => closed_run_offset_zero p ht _ hC n hn,
    fun ht => closed_run_angle_zero p ht _ hC n hn⟩

/-- C6 (witness): the round trip on `"door_1"` — 101 ticks to `Open`, then
99 ticks to `Closed` — ends at exactly offset `0`. -/
theorem round_trip_exact_witness :
    (iterMove props1 99
        (update_door_goal_leaf props1 (DoorEvent.closeDoor props1.name)
          (iterMove props1 101
            (update_door_goal_leaf props1 (DoorEvent.openDoor props1.name)
              leafClosed0)))).jt.offset = 0 := by
  have hm : (iterMove props1 101
      (update_door_goal_leaf props1 (DoorEvent.openDoor props1.name)
        leafClosed0)).state = DoorState.Open := by
    rw [show DoorEvent.openDoor props1.name =
        DoorEvent.openDoor "door_1" from rfl,
      open_command_accepted, open_run_props1_101]
  have hn : (iterMove props1 99
      (update_door_goal_leaf props1 (DoorEvent.closeDoor props1.name)
        (iterMove props1 101
          (update_door_goal_leaf props1 (DoorEvent.openDoor props1.name)
            leafClosed0)))).state = DoorState.Closed := by
    rw [show DoorEvent.openDoor props1.name =
        DoorEvent.openDoor "door_1" from rfl,
      open_command_accepted, open_run_props1_101,
      show DoorEvent.closeDoor props1.name =
        DoorEvent.closeDoor "door_1" from rfl,
      close_command_accepted, close_run_props1_99]
  exact (round_trip_exact props1 101 99 hm hn).1 rfl

/-- A door entity in the world: its components (`DoorProperties`,
`DoorDimensions`, `Transform`) plus the tick at which `DoorProperties` was
added (the `Added<DoorProperties>` query filter of `spawn_door` fires exactly
for doors whose components were added since the system last ran). -/
structure DoorEntity where
  id : ℕ
  props : DoorProperties
  dims : DoorDimensions
  transform : Transform
  addedTick : ℕ
deriving DecidableEq, Repr

/-- A joint entity in the world: its `Parent` component (the owning door
entity's id, set by `add_child` in `spawn_door`) and its motion state. -/
structure LeafEntity where
  parent : ℕ
  leaf : Leaf
deriving DecidableEq, Repr

/-- The ECS world restricted to the door module: door entities, joint
entities, a fresh-id counter, and the current tick. -/
structure World where
  doors : List DoorEntity
  leaves : List LeafEntity
  nextId : ℕ
  tick : ℕ
deriving DecidableEq, Repr

/-- `door_property_queries.get(parent.get())`: resolve a joint's owning door
entity. -/
def lookupDoor (doors : List DoorEntity) (i : ℕ) : Option DoorEntity :=
  doors.find? (fun d => d.id == i)

/-- Fold the entities spawned for one door into the world: child doors
receive fresh ids and become visible to `Added<DoorProperties>` at the next
tick (Bevy commands apply after the system runs); joints are parented to the
door being resolved. Returns (new doors, new leaves, next fresh id). -/
def integrateSpawns (parentId nextTick : ℕ) :
    List SpawnedEntity → ℕ → List DoorEntity × List LeafEntity × ℕ
  | [], next => ([], [], next)
  | SpawnedEntity.childDoor pr dm tr :: rest, next =>
    let r := integrateSpawns parentId nextTick rest (next + 1)
    ({ id := next, props := pr, dims := dm, transform := tr,
       addedTick := nextTick } :: r.1, r.2.1, r.2.2)
  | SpawnedEntity.joint s g jt :: rest, next =>
    let r := integrateSpawns parentId nextTick rest next
    (r.1, { parent := parentId,
            leaf := { jt := jt, state := s, goal := g } } :: r.2.1, r.2.2)

/-- Resolve a batch of doors in query order. -/
def resolveDoors (nextTick : ℕ) :
    List DoorEntity → ℕ → List DoorEntity × List LeafEntity × ℕ
  | [], next => ([], [], next)
  | d :: rest, next =>
    let s := integrateSpawns d.id nextTick
      (spawn_door d.props d.dims d.transform) next
    let r := resolveDoors nextTick rest s.2.2
    (s.1 ++ r.1, s.2.1 ++ r.2.1, r.2.2)

/-- One run of the `spawn_door` system over the world: process exactly the
doors whose properties were added this tick, append what they spawn, and
advance the tick. -/
def spawn_door_system (w : World) : World :=
  let r := resolveDoors (w.tick + 1)
    (w.doors.filter (fun d => d.addedTick == w.tick)) w.nextId
  { doors := w.doors ++ r.1, leaves := w.leaves ++ r.2.1,
    nextId := r.2.2, tick := w.tick + 1 }

/-- Apply a per-leaf update to every joint, resolving each joint's owning
door first; `none` models the `expect("Door properties not found")` panic on
a failed lookup. -/
def leavesUpdate (f : DoorProperties → Leaf → Leaf)
    (doors : List DoorEntity) : List LeafEntity → Option (List LeafEntity)
  | [] => some []
  | le :: rest =>
    match lookupDoor doors le.parent with
    | none => none
    | some d =>
      match leavesUpdate f doors rest with
      | none => none
      | some ls => some ({ le with leaf := f d.props le.leaf } :: ls)

/-- A whole-world pass shared by the two per-leaf systems. -/
def leaves_system (f : DoorProperties → Leaf → Leaf) (w : World) :
    Option World :=
  match leavesUpdate f w.doors w.leaves with
  | none => none
  | some ls => some { w with leaves := ls }

/-- The `update_door_goal` system (`mod.rs` lines 286-321) over the world for
one pending event; `none` is the fatal lookup failure. -/
def update_door_goal (ev : DoorEvent) (w : World) : Option World :=
  leaves_system (fun pr lf => update_door_goal_leaf pr ev lf) w

/-- The `update_door_movement` system (`mod.rs` lines 324-395) over the
world; `none` is the fatal lookup failure. -/
def update_door_movement (w : World) : Option World :=
  leaves_system update_door_movement_leaf w

/-- Worlds reachable by the normal lifecycle: start with doors only (no
leaves), then any interleaving of the three systems. -/
inductive Reachable : World → Prop where
  | init (ds : List DoorEntity) (nid t : ℕ) :
      Reachable { doors := ds, leaves := [], nextId := nid, tick := t }
  | resolver (w : World) : Reachable w → Reachable (spawn_door_system w)
  | router (w w' : World) (ev : DoorEvent) :
      Reachable w → update_door_goal ev w = some w' → Reachable w'
  | integrator (w w' : World) :
      Reachable w → update_door_movement w = some w' → Reachable w'

/-- Every joint's `Parent` points at an existing door entity. -/
def OwnerResolvable (w : World) : Prop :=
  ∀ le ∈ w.leaves, ∃ d ∈ w.doors, d.id = le.parent

/-- Number of joint leaves whose owning door is named `nm`. -/
def leavesNamed (w : World) (nm : String) : ℕ :=
  (w.leaves.filter (fun le =>
    match lookupDoor w.doors le.parent with
    | some d => d.props.name == nm
    | none => false)).length

lemma lookupDoor_isSome :
    ∀ (doors : List DoorEntity) (i : ℕ),
      (∃ d ∈ doors, d.id = i) → (lookupDoor doors i).isSome := by
  intro doors
  induction doors with
  | nil =>
    intro i h
    rcases h with ⟨d, hd, _⟩
    cases hd
  | cons a rest ih =>
    intro i h
    rcases h with ⟨d, hd, hid⟩
    cases hpa : (a.id == i) with
    | true => simp [lookupDoor, List.find?_cons, hpa]
    | false =>
      rcases List.mem_cons.mp hd with rfl | hmem
      · rw [hid] at hpa
        simp at hpa
      · have := ih i ⟨d, hmem, hid⟩
        simpa [lookupDoor, List.find?_cons, hpa] using this

lemma integrateSpawns_parents (pid nt : ℕ) :
    ∀ (l : List SpawnedEntity) (next : ℕ) (le : LeafEntity),
      le ∈ (integrateSpawns pid nt l next).2.1 → le.parent = pid := by
  intro l
  induction l with
  | nil =>
    intro next le h
    simp [integrateSpawns] at h
  | cons a rest ih =>
    intro next le h
    cases a with
    | childDoor pr dm tr =>
      simp only [integrateSpawns] at h
      exact ih (next + 1) le h
    | joint s g jt =>
      simp only [integrateSpawns, List.mem_cons] at h
      rcases h with rfl | hmem
      · rfl
      · exact ih next le hmem

lemma resolveDoors_parents (nt : ℕ) :
    ∀ (ds : List DoorEntity) (next : ℕ) (le : LeafEntity),
      le ∈ (resolveDoors nt ds next).2.1 → ∃ d ∈ ds, le.parent = d.id := by
  intro ds
  induction ds with
  | nil =>
    intro next le h
    simp [resolveDoors] at h
  | cons d rest ih =>
    intro next le h
    simp only [resolveDoors, List.mem_append] at h
    rcases h with h | h
    · exact ⟨d, List.mem_cons_self d rest,
        integrateSpawns_parents d.id nt _ _ le h⟩
    · rcases ih _ le h with ⟨d', hd', hp⟩
      exact ⟨d', List.mem_cons_of_mem d hd', hp⟩

lemma spawn_system_preserves_owner (w : World) (h : OwnerResolvable w) :
    OwnerResolvable (spawn_door_system w) := by
  intro le hle
  simp only [spawn_door_system, List.mem_append] at hle
  rcases hle with hle | hle
  · rcases h le hle with ⟨d, hd, hp⟩
    exact ⟨d, List.mem_append_left _ hd, hp⟩
  · rcases resolveDoors_parents _ _ _ le hle with ⟨d, hd, hp⟩
    exact ⟨d, List.mem_append_left _ (List.mem_of_mem_filter hd), hp.symm⟩

lemma leavesUpdate_parents (f : DoorProperties → Leaf → Leaf)
    (doors : List DoorEntity) :
    ∀ (l ls : List LeafEntity), leavesUpdate f doors l = some ls →
      ls.map (fun le => le.parent) = l.map (fun le => le.parent) := by
  intro l
  induction l with
  | nil =>
    intro ls h
    simp only [leavesUpdate, Option.some.injEq] at h
    rw [← h]
  | cons le rest ih =>
    intro ls h
    simp only [leavesUpdate] at h
    cases hfind : lookupDoor doors le.parent with
    | none => rw [hfind] at h; simp at h
    | some d =>
      rw [hfind] at h
      cases hrec : leavesUpdate f doors rest with
      | none => rw [hrec] at h; simp at h
      | some ls' =>
        rw [hrec] at h
        simp only [Option.some.injEq] at h
        rw [← h]
        simp [ih ls' hrec]

lemma leavesUpdate_isSome (f : DoorProperties → Leaf → Leaf)
    (doors : List DoorEntity) :
    ∀ l : List LeafEntity,
      (∀ le ∈ l, (lookupDoor doors le.parent).isSome) →
      (leavesUpdate f doors l).isSome := by
  intro l
  induction l with
  | nil =>
    intro _
    simp [leavesUpdate]
  | cons le rest ih =>
    intro h
    have h1 := h le (List.mem_cons_self le rest)
    cases hfind : lookupDoor doors le.parent with
    | none => rw [hfind] at h1; simp at h1
    | some d =>
      have h2 := ih (fun x hx => h x (List.mem_cons_of_mem le hx))
      cases hrec : leavesUpdate f doors rest with
      | none => rw [hrec] at h2; simp at h2
      | some ls => simp [leavesUpdate, hfind, hrec]

lemma leaves_system_some_inv (f : DoorProperties → Leaf → Leaf)
    (w w' : World) (h : leaves_system f w = some w') :
    w'.doors = w.doors ∧
      leavesUpdate f w.doors w.leaves = some w'.leaves := by
  unfold leaves_system at h
  cases hrec : leavesUpdate f w.doors w.leaves with
  | none => rw [hrec] at h; simp at h
  | some ls =>
    rw [hrec] at h
    simp only [Option.some.injEq] at h
    rw [← h]
    exact ⟨rfl, rfl⟩

lemma leaves_system_preserves_owner (f : DoorProperties → Leaf → Leaf)
    (w w' : World) (h : leaves_system f w = some w')
    (how : OwnerResolvable w) : OwnerResolvable w' := by
  rcases leaves_system_some_inv f w w' h with ⟨hd, hl⟩
  intro le hle
  have hmap := leavesUpdate_parents f w.doors w.leaves w'.leaves hl
  have hmem : le.parent ∈ w'.leaves.map (fun x => x.parent) :=
    List.mem_map_of_mem _ hle
  rw [hmap] at hmem
  rcases List.mem_map.mp hmem with ⟨le0, hle0, hpar⟩
  rcases how le0 hle0 with ⟨d, hdm, hid⟩
  exact ⟨d, hd ▸ hdm, hid.trans hpar⟩

lemma reachable_owner (w : World) (h : Reachable w) : OwnerResolvable w := by
  induction h with
  | init ds nid t =>
    intro le hle
    cases hle
  | resolver w _ ih => exact spawn_system_preserves_owner w ih
  | router w w' ev _ hstep ih =>
    exact leaves_system_preserves_owner _ w w' hstep ih
  | integrator w w' _ hstep ih =>
    exact leaves_system_preserves_owner _ w w' hstep ih

lemma leaves_system_isSome (f : DoorProperties → Leaf → Leaf) (w : World)
    (h : ∀ le ∈ w.leaves, (lookupDoor w.doors le.parent).isSome) :
    (leaves_system f w).isSome := by
  unfold leaves_system
  have hu := leavesUpdate_isSome f w.doors w.leaves h
  cases hrec : leavesUpdate f w.doors w.leaves with
  | none => rw [hrec] at hu; simp at hu
  | some ls => simp

/-- C9: in every world reachable by the normal lifecycle, every joint's
owning-door lookup succeeds, so both the command router and the motion
integrator complete without hitting the fatal
`expect("Door properties not found")` branch. -/
theorem owner_lookup_total (w : World) (h : Reachable w) :
    (∀ le ∈ w.leaves, (lookupDoor w.doors le.parent).isSome) ∧
    (∀ ev : DoorEvent, (update_door_goal ev w).isSome) ∧
    (update_door_movement w).isSome := by
  have hlk : ∀ le ∈ w.leaves, (lookupDoor w.doors le.parent).isSome :=
    fun le hle => lookupDoor_isSome w.doors le.parent
      (reachable_owner w h le hle)
  exact ⟨hlk, fun ev => leaves_system_isSome _ w hlk,
    leaves_system_isSome _ w hlk⟩

/-- The world containing just the freshly created `"door_1"` door. -/
def winit : World :=
  { doors := [{ id := 0, props := props1,
                dims := { length := 1, height := 2, thickness := 1 },
                transform := t0, addedTick := 0 }],
    leaves := [], nextId := 1, tick := 0 }

/-- C9 (witness): after resolving `winit`, the motion-integrator pass on the
resulting world succeeds. -/
theorem owner_lookup_total_witness :
    (update_door_movement (spawn_door_system winit)).isSome :=
  (owner_lookup_total (spawn_door_system winit)
    (Reachable.resolver winit (Reachable.init _ _ _))).2.2

/-- A world in which every door was already resolved on an earlier tick is
passed through the resolver with nothing spawned (only the tick advances). -/
lemma resolver_stable (w : World)
    (h : ∀ d ∈ w.doors, d.addedTick < w.tick) :
    spawn_door_system w = { w with tick := w.tick + 1 } := by
  have hfilter : w.doors.filter (fun d => d.addedTick == w.tick) = [] := by
    rw [List.filter_eq_nil_iff]
    intro a ha
    simp only [beq_iff_eq]
    exact Nat.ne_of_lt (h a ha)
  simp [spawn_door_system, hfilter, resolveDoors]

/-- Iterating the resolver over a settled world never changes its doors or
its leaves. -/
lemma resolver_stable_iter (w : World)
    (h : ∀ d ∈ w.doors, d.addedTick < w.tick) :
    ∀ n : ℕ, (spawn_door_system^[n] w).doors = w.doors ∧
      (spawn_door_system^[n] w).leaves = w.leaves := by
  suffices H : ∀ n : ℕ, (spawn_door_system^[n] w).doors = w.doors ∧
      (spawn_door_system^[n] w).leaves = w.leaves ∧
      w.tick ≤ (spawn_door_system^[n] w).tick by
    exact fun n => ⟨(H n).1, (H n).2.1⟩
  intro n
  induction n with
  | zero => simp
  | succ n ih =>
    rcases ih with ⟨hd, hl, htk⟩
    rw [Function.iterate_succ_apply']
    have hstep : ∀ d ∈ (spawn_door_system^[n] w).doors,
        d.addedTick < (spawn_door_system^[n] w).tick := by
      rw [hd]
      intro d hdm
      exact lt_of_lt_of_le (h d hdm) htk
    rw [resolver_stable _ hstep]
    refine ⟨by simp [hd], by simp [hl], ?_⟩
    simp only []
    omega

/-- `leavesNamed` only reads the doors and leaves of a world. -/
lemma leavesNamed_congr (w w' : World) (nm : String)
    (hd : w.doors = w'.doors) (hl : w.leaves = w'.leaves) :
    leavesNamed w nm = leavesNamed w' nm := by
  unfold leavesNamed lookupDoor
  rw [hd, hl]

/-- The `"door_2"` double-sliding door freshly created, alone in the world. -/
def wDouble : World :=
  { doors := [{ id := 0, props := p4, dims := dm4, transform := t0,
                addedTick := 0 }],
    leaves := [], nextId := 1, tick := 0 }

/-- C8: topology resolution is idempotent — (i) on any world whose doors were
all resolved on earlier ticks, any number of further resolver passes changes
neither the doors nor the leaves; (ii) the single-door `"door_1"` world keeps
exactly 1 leaf named `"door_1"` on every tick after its resolution; (iii) the
double-door `"door_2"` world keeps exactly 2 leaves named `"door_2"` on every
tick after its two-stage resolution. -/
theorem resolver_idempotent :
    (∀ w : World, (∀ d ∈ w.doors, d.addedTick < w.tick) →
      ∀ n : ℕ, (spawn_door_system^[n] w).doors = w.doors ∧
        (spawn_door_system^[n] w).leaves = w.leaves) ∧
    (∀ n : ℕ,
      leavesNamed (spawn_door_system^[n + 1] winit) "door_1" = 1) ∧
    (∀ n : ℕ,
      leavesNamed (spawn_door_system^[n + 2] wDouble) "door_2" = 2) := by
  refine ⟨resolver_stable_iter, ?_, ?_⟩
  · intro n
    rw [show n + 1 = n + 1 from rfl, Function.iterate_add_apply]
    have hset : ∀ d ∈ (spawn_door_system^[1] winit).doors,
        d.addedTick < (spawn_door_system^[1] winit).tick := by decide
    rcases resolver_stable_iter _ hset n with ⟨hd, hl⟩
    rw [leavesNamed_congr _ _ "door_1" hd hl]
    decide
  · intro n
    rw [Function.iterate_add_apply]
    have hset : ∀ d ∈ (spawn_door_system^[2] wDouble).doors,
        d.addedTick < (spawn_door_system^[2] wDouble).tick := by decide
    rcases resolver_stable_iter _ hset n with ⟨hd, hl⟩
    rw [leavesNamed_congr _ _ "door_2" hd hl]
    decide

/-- The `"door_1"` world right after its resolution tick. -/
def wSettled : World :=
  { doors := [{ id := 0, props := props1,
                dims := { length := 1, height := 2, thickness := 1 },
                transform := t0, addedTick := 0 }],
    leaves := [{ parent := 0, leaf := leafClosed0 }],
    nextId := 1, tick := 1 }

/-- C8 (witness): three further resolver passes leave the settled `"door_1"`
world's doors and leaves untouched. -/
theorem resolver_idempotent_witness :
    (spawn_door_system^[3] wSettled).doors = wSettled.doors ∧
      (spawn_door_system^[3] wSettled).leaves = wSettled.leaves :=
  resolver_idempotent.1 wSettled (by decide) 3

end DoorSim
